import Mathlib

/-!
Verification development for the Image Text Editor server (src/server.py).

The file shallowly embeds the parts of the server the specification talks
about: the JSON value model used by the request bodies, the helper
`hex_to_rgb`, the font-resolution helper `get_font`, the per-block drawing
loop of the `/update_image` endpoint, the block extraction loop of
`/extract_text`, and the `/download` endpoint together with a model of
werkzeug `secure_filename`.

Conventions of the embedding:
- Python values appearing in JSON request bodies are modelled by `Value`
  (ints, strings, booleans, null).  JSON numbers are modelled as integers;
  floating point numbers are out of scope.
- Python `int(v)` is modelled by `pyInt` (returns `none` where Python
  raises).  `int(s)` on strings strips ASCII whitespace, accepts an
  optional sign and decimal digits with underscore grouping, exactly as
  CPython does for ASCII inputs.  `int(s, 16)` is modelled the same way
  over hex digits; the `0x` base tag form is irrelevant here because
  `hex_to_rgb` only ever parses slices of at most two characters, and
  CPython rejects the bare tag `0x` just as this model does.
- Filesystem probes, image opening, font loading and text measurement are
  external effects; they are modelled by an explicit environment `Env` of
  pure functions, so every server operation is a total function of the
  request and the environment.
- Drawing on the PIL overlay is modelled as the list of draw calls issued,
  in order (`DrawOp`), and the image pipeline as a small term language
  `PImg` recording open, mode conversion and alpha compositing.
-/

/-- A JSON-ish Python value as it appears in request bodies. -/
inductive Value
  | vInt (n : Int)
  | vStr (s : String)
  | vBool (b : Bool)
  | vNull
  deriving DecidableEq

/-- Python truthiness of a `Value` (used by `if not image_path or not text_blocks`
and by the style-flag tests in the block loop). -/
def truthy : Value → Bool
  | Value.vInt n => n != 0
  | Value.vStr s => s != ""
  | Value.vBool b => b
  | Value.vNull => false

/-- Python `str(v)` for a `Value`. -/
def pyStr : Value → String
  | Value.vInt n => toString n
  | Value.vStr s => s
  | Value.vBool b => if b then "True" else "False"
  | Value.vNull => "None"

/-- The six characters Python `str.split` and `str.strip` treat as whitespace. -/
def pySpace (c : Char) : Bool :=
  c == ' ' || c == '\t' || c == '\n' || c == '\r' || c == '\x0b' || c == '\x0c'

/-- Value of a single hexadecimal digit character. -/
def hexDigitVal (c : Char) : Option Nat :=
  if '0' ≤ c ∧ c ≤ '9' then some (c.toNat - '0'.toNat)
  else if 'a' ≤ c ∧ c ≤ 'f' then some (c.toNat - 'a'.toNat + 10)
  else if 'A' ≤ c ∧ c ≤ 'F' then some (c.toNat - 'A'.toNat + 10)
  else none

/-- Whether `c` is a hexadecimal digit. -/
def isHexChar (c : Char) : Bool := (hexDigitVal c).isSome

/-- Value of a single decimal digit character. -/
def decDigitVal (c : Char) : Option Nat :=
  if '0' ≤ c ∧ c ≤ '9' then some (c.toNat - '0'.toNat) else none

/-- CPython digit-grouping rule for integer literals: a nonempty digit
string in which every underscore sits between two digits. -/
def digitsGrouped (isD : Char → Bool) : List Char → Bool
  | [] => false
  | [c] => isD c
  | c :: '_' :: rest => isD c && digitsGrouped isD rest
  | c :: c2 :: rest => isD c && digitsGrouped isD (c2 :: rest)

/-- Accumulate the numeric value of a digit string, skipping grouping
underscores (which `dval` maps to `none`). -/
def digitsValue (dval : Char → Option Nat) (base : Nat) (cs : List Char) : Nat :=
  cs.foldl (fun acc c => match dval c with
    | some d => acc * base + d
    | none => acc) 0

/-- Python `int(s, base)` on an ASCII string: strip whitespace, optional
sign, grouped digits; `none` models `ValueError`. -/
def pyIntOfChars (isD : Char → Bool) (dval : Char → Option Nat) (base : Nat)
    (cs : List Char) : Option Int :=
  let t := ((cs.dropWhile pySpace).reverse.dropWhile pySpace).reverse
  match t with
  | '+' :: rest =>
    if digitsGrouped isD rest then some (digitsValue dval base rest) else none
  | '-' :: rest =>
    if digitsGrouped isD rest then some (-((digitsValue dval base rest : Nat) : Int)) else none
  | rest =>
    if digitsGrouped isD rest then some (digitsValue dval base rest) else none

/-- Python `int(v)` on a `Value`; `none` models a raised exception. -/
def pyInt : Value → Option Int
  | Value.vInt n => some n
  | Value.vBool b => some (if b then 1 else 0)
  | Value.vStr s => pyIntOfChars Char.isDigit decDigitVal 10 s.data
  | Value.vNull => none

/-- The two-character slice `s[i:i+2]` of a Python string. -/
def hexSlice2 (cs : List Char) (i : Nat) : List Char := (cs.drop i).take 2

/-- `hex_to_rgb` from server.py: `lstrip` the leading `#` signs, then parse
the slices at 0, 2 and 4 with `int(_, 16)`.  Applied to a JSON value
because the endpoint feeds it `block.get(...)` results directly; a
non-string argument raises (`none`), as does any failing slice parse. -/
def hex_to_rgb : Value → Option (Int × Int × Int)
  | Value.vStr s =>
    let cs := s.data.dropWhile (· == '#')
    match pyIntOfChars isHexChar hexDigitVal 16 (hexSlice2 cs 0),
          pyIntOfChars isHexChar hexDigitVal 16 (hexSlice2 cs 2),
          pyIntOfChars isHexChar hexDigitVal 16 (hexSlice2 cs 4) with
    | some r, some g, some b => some (r, g, b)
    | _, _, _ => none
  | _ => none

/-- A font handle as returned by the font helper: a truetype font loaded
from a path at a size, or the PIL built-in default font. -/
inductive Font
  | truetype (path : String) (size : Int)
  | default
  deriving DecidableEq

/-- An RGBA fill color. -/
structure RGBA where
  r : Int
  g : Int
  b : Int
  a : Int
  deriving DecidableEq

/-- One drawing call issued against the transparent overlay, in the order
the server issues them. -/
inductive DrawOp
  | rect (x0 y0 x1 y1 : Int) (fill : RGBA)
  | text (x y : Int) (s : String) (fill : RGBA) (font : Font)
  | line (x0 y0 x1 y1 : Int) (fill : RGBA) (width : Int)
  deriving DecidableEq

/-- The external world as seen by the server: filesystem probes, file
descriptor probes (what `os.path.exists` does on an integer argument),
truetype loading, image opening (returning the image mode, or `none` when
opening raises), saving to a named file (`Image.save` with no format
argument infers the format from the file name and raises `ValueError`
when its extension is absent or unregistered, so `saveOk` is false for
such names), and PIL text measurement (`none` when `textbbox` raises, as
on older Pillow versions). -/
structure Env where
  pathExists : String → Bool
  fdExists : Int → Bool
  loadOk : String → Int → Bool
  openMode : String → Option String
  saveOk : String → Bool
  textbbox : Int → Int → String → Font → Option (Int × Int × Int × Int)

/-- The `linux_fonts` dict of `get_font`: family name to ordered candidate
paths, `none` entries standing for the Python `None` placeholders used
when bold or italic is not requested.  A lookup of an unknown key returns
`none`, like `dict.get`. -/
def linux_fonts (bold italic : Bool) (fam : String) : Option (List (Option String)) :=
  if fam = "Arial" then
    some [some "/usr/share/fonts/truetype/liberation/LiberationSans-Regular.ttf",
          if bold then some "/usr/share/fonts/truetype/liberation/LiberationSans-Bold.ttf" else none,
          if italic then some "/usr/share/fonts/truetype/liberation/LiberationSans-Italic.ttf" else none]
  else if fam = "Times New Roman" then
    some [some "/usr/share/fonts/truetype/liberation/LiberationSerif-Regular.ttf",
          if bold then some "/usr/share/fonts/truetype/liberation/LiberationSerif-Bold.ttf" else none]
  else if fam = "Courier New" then
    some [some "/usr/share/fonts/truetype/liberation/LiberationMono-Regular.ttf",
          if bold then some "/usr/share/fonts/truetype/liberation/LiberationMono-Bold.ttf" else none]
  else none

/-- The `windows_fonts` dict of `get_font`. -/
def windows_fonts (bold italic : Bool) (fam : String) : Option (List (Option String)) :=
  if fam = "Arial" then
    some [some "C:/Windows/Fonts/arial.ttf",
          if bold then some "C:/Windows/Fonts/arialbd.ttf" else none,
          if italic then some "C:/Windows/Fonts/ariali.ttf" else none]
  else if fam = "Times New Roman" then
    some [some "C:/Windows/Fonts/times.ttf",
          if bold then some "C:/Windows/Fonts/timesbd.ttf" else none,
          if italic then some "C:/Windows/Fonts/timesi.ttf" else none]
  else if fam = "Courier New" then
    some [some "C:/Windows/Fonts/cour.ttf",
          if bold then some "C:/Windows/Fonts/courbd.ttf" else none]
  else if fam = "Comic Sans MS" then some [some "C:/Windows/Fonts/comic.ttf"]
  else if fam = "Verdana" then some [some "C:/Windows/Fonts/verdana.ttf"]
  else if fam = "Georgia" then some [some "C:/Windows/Fonts/georgia.ttf"]
  else none

/-- `linux_fonts.get(font_family, linux_fonts.get("Arial", []))`. -/
def linuxCandidates (bold italic : Bool) (fam : String) : List (Option String) :=
  (linux_fonts bold italic fam).getD ((linux_fonts bold italic "Arial").getD [])

/-- `windows_fonts.get(font_family, windows_fonts.get("Arial", []))`. -/
def windowsCandidates (bold italic : Bool) (fam : String) : List (Option String) :=
  (windows_fonts bold italic fam).getD ((windows_fonts bold italic "Arial").getD [])

/-- The candidate loop body of `get_font`: walk the path list in order,
skip `None` entries and absent paths, try to load each remaining path and
continue past load failures; `none` when the list is exhausted. -/
def tryPaths (env : Env) (size : Int) : List (Option String) → Option Font
  | [] => none
  | none :: rest => tryPaths env size rest
  | some p :: rest =>
    if env.pathExists p then
      if env.loadOk p size then some (Font.truetype p size) else tryPaths env size rest
    else tryPaths env size rest

/-- `get_font` from server.py: try the Linux table, then the Windows
table, then fall back to the built-in default font. -/
def get_font (env : Env) (fam : String) (size : Int) (bold italic : Bool) : Font :=
  match tryPaths env size (linuxCandidates bold italic fam) with
  | some f => f
  | none =>
    match tryPaths env size (windowsCandidates bold italic fam) with
    | some f => f
    | none => Font.default

/-- Font resolution as the specification words it: one ordered search over
the Linux candidates followed by the Windows candidates (each table mapping
unknown families to its Arial list), with the default font on exhaustion. -/
def fontResolutionSpec (env : Env) (fam : String) (size : Int) (bold italic : Bool) : Font :=
  (tryPaths env size (linuxCandidates bold italic fam ++ windowsCandidates bold italic fam)).getD
    Font.default

/-- One entry of the `text_blocks` JSON array sent to `/update_image`:
every field is optional (the endpoint reads the geometry and text with
`block[...]`, everything else with `block.get(..., default)`). -/
structure RawBlock where
  x : Option Value
  y : Option Value
  width : Option Value
  height : Option Value
  text : Option Value
  fontSize : Option Value
  fontFamily : Option Value
  bold : Option Value
  italic : Option Value
  underline : Option Value
  textColor : Option Value
  backgroundColor : Option Value
  backgroundTransparent : Option Value
  deriving DecidableEq

/-- The string `get_font` receives as its family argument: the JSON value
if it is a string, otherwise a value that is not a key of either font
table (a non-string dict lookup simply misses). -/
def familyName : Value → String
  | Value.vStr s => s
  | _ => "\x00"

/-- The font a block resolves to, given its parsed font size. -/
def blockFont (env : Env) (b : RawBlock) (fs : Int) : Font :=
  get_font env (familyName (b.fontFamily.getD (Value.vStr "Arial"))) fs
    (truthy (b.bold.getD (Value.vBool false)))
    (truthy (b.italic.getD (Value.vBool false)))

/-- The background rectangle of a block: the bounding box expanded by two
pixels on each side, filled with translucent near-white when
`backgroundTransparent` is truthy, else with the parsed background color
at full alpha (`none` when that color string fails to parse). -/
def bgOpOf (b : RawBlock) (x y w h : Int) : Option DrawOp :=
  if truthy (b.backgroundTransparent.getD (Value.vBool true)) then
    some (DrawOp.rect (x - 2) (y - 2) (x + w + 2) (y + h + 2) ⟨255, 255, 255, 200⟩)
  else
    (hex_to_rgb (b.backgroundColor.getD (Value.vStr "#FFFFFF"))).map
      (fun c => DrawOp.rect (x - 2) (y - 2) (x + w + 2) (y + h + 2) ⟨c.1, c.2.1, c.2.2, 255⟩)

/-- The body of the per-block `try` in `update_image`: returns the draw
calls the block issued, in order, and whether it ran to completion.  A
block that raises partway keeps the draw calls already issued (the PIL
overlay is mutated in place) and is reported as failed. -/
def processBlock (env : Env) (b : RawBlock) : List DrawOp × Bool :=
  match b.x.bind pyInt, b.y.bind pyInt, b.width.bind pyInt, b.height.bind pyInt, b.text with
  | some x, some y, some w, some h, some tv =>
    match pyInt (b.fontSize.getD (Value.vInt 20)) with
    | none => ([], false)
    | some fs =>
      let font := blockFont env b fs
      match bgOpOf b x y w h with
      | none => ([], false)
      | some bgOp =>
        match hex_to_rgb (b.textColor.getD (Value.vStr "#000000")) with
        | none => ([bgOp], false)
        | some tc =>
          let textOp := DrawOp.text x y (pyStr tv) ⟨tc.1, tc.2.1, tc.2.2, 255⟩ font
          if truthy (b.underline.getD (Value.vBool false)) then
            match env.textbbox x y (pyStr tv) font with
            | some (_, _, x2, y2) =>
              ([bgOp, textOp,
                DrawOp.line x (y2 + 1) x2 (y2 + 1) ⟨tc.1, tc.2.1, tc.2.2, 255⟩ 2], true)
            | none => ([bgOp, textOp], true)
          else ([bgOp, textOp], true)
  | _, _, _, _, _ => ([], false)

/-- All draw calls issued by a list of blocks, in order; failed blocks
contribute whatever they drew before raising. -/
def opsOf (env : Env) (bs : List RawBlock) : List DrawOp :=
  (bs.map (fun b => (processBlock env b).fst)).flatten

/-- The image pipeline of `update_image` as a term: open a file, convert
its mode, or alpha-composite an overlay (given by its draw calls) onto a
base image. -/
inductive PImg
  | opened (path : String)
  | convert (mode : String) (img : PImg)
  | alphaComposite (base : PImg) (ops : List DrawOp)
  deriving DecidableEq

/-- The PIL mode of a pipeline term: an opened file has the mode the
environment reports, `convert` forces its mode, and `alpha_composite`
always yields RGBA. -/
def modeOf (env : Env) : PImg → String
  | PImg.opened p => (env.openMode p).getD ""
  | PImg.convert m _ => m
  | PImg.alphaComposite _ _ => "RGBA"

/-- The JSON body of an `/update_image` request: both fields read with
`data.get`, so either may be absent. -/
structure UpdateReq where
  image_path : Option Value
  text_blocks : Option (List RawBlock)

/-- Outcome of `/update_image`: the 400 "Missing required data" response,
the 404 response, a 500 from the outer exception handler, or the 200
response carrying the saved path and filename, the image written to disk,
and the image returned inline as base64 PNG. -/
inductive UpdateResult
  | missingData
  | notFound
  | error
  | ok (saved_path : String) (filename : String) (saved : PImg) (inline : PImg)
  deriving DecidableEq

/-- `os.path.exists` applied to a JSON value: strings probe the
filesystem, ints and bools probe file descriptors, `None` raises. -/
def pyPathExists (env : Env) : Value → Option Bool
  | Value.vStr s => some (env.pathExists s)
  | Value.vInt n => some (env.fdExists n)
  | Value.vBool b => some (env.fdExists (if b then 1 else 0))
  | Value.vNull => none

/-- Model of werkzeug `secure_filename` on ASCII-representable input: drop
non-ASCII characters (the NFKD-then-ascii-encode step; accent folding of
non-ASCII letters is not modelled), replace the path separator by a space,
join the whitespace-split words with underscores, delete every character
outside `[A-Za-z0-9_.-]`, and strip leading and trailing dots and
underscores. -/
def allowedChar (c : Char) : Bool :=
  ('A' ≤ c && c ≤ 'Z') || ('a' ≤ c && c ≤ 'z') || ('0' ≤ c && c ≤ '9') ||
    c == '_' || c == '.' || c == '-'

/-- The characters `secure_filename` strips from both ends. -/
def stripSet (c : Char) : Bool := c == '.' || c == '_'

/-- Remove the longest suffix of characters satisfying `p`. -/
def stripEnd (p : Char → Bool) (l : List Char) : List Char := (l.reverse.dropWhile p).reverse

/-- Python `str.strip`-style stripping from both ends. -/
def stripBoth (p : Char → Bool) (l : List Char) : List Char := stripEnd p (l.dropWhile p)

/-- Helper for Python `str.split()`: accumulate the current word
(reversed) and cut at whitespace runs. -/
def pySplitAux : List Char → List Char → List (List Char)
  | [], acc => if acc.isEmpty then [] else [acc.reverse]
  | c :: rest, acc =>
    if pySpace c then
      if acc.isEmpty then pySplitAux rest [] else acc.reverse :: pySplitAux rest []
    else pySplitAux rest (c :: acc)

/-- Python `str.split()` with no argument: maximal nonempty words between
whitespace runs. -/
def pySplit (cs : List Char) : List (List Char) := pySplitAux cs []

/-- werkzeug `secure_filename` (see `allowedChar` for the model notes). -/
def secure_filename (s : String) : String :=
  let ascii := s.data.filter (fun c => c.toNat ≤ 127)
  let replaced := ascii.map (fun c => if c == '/' then ' ' else c)
  let joined := List.intercalate ['_'] (pySplit replaced)
  ⟨stripBoth stripSet (joined.filter allowedChar)⟩

/-- Python `str.strip()` on a character list. -/
def pyStripL (l : List Char) : List Char := stripBoth pySpace l

/-- Python `str.strip()` on a string. -/
def pyStripStr (s : String) : String := ⟨pyStripL s.data⟩

/-- `os.path.basename` on POSIX: everything after the last slash. -/
def basename (s : String) : String := ⟨(s.data.reverse.takeWhile (· != '/')).reverse⟩

/-- `os.path.join(a, b)` on POSIX for the shapes the server uses: an
absolute second component replaces the first, otherwise the components are
joined with a slash (the upload folder name does not end in a slash). -/
def pathJoin (a b : String) : String :=
  match b.data with
  | '/' :: _ => b
  | _ => a ++ "/" ++ b

/-- The configured upload folder. -/
def UPLOAD_FOLDER : String := "uploads"

/-- The `/update_image` endpoint from server.py: validate presence and
truthiness of both fields, 404 on a missing file, open the image and
convert it to RGBA if needed, run every block through the guarded block
loop, alpha-composite the overlay, flatten to RGB, save under
`edited_<sanitized basename>` in the upload folder and also return the
same image inline.  The save to disk infers its format from that output
name; when it raises (absent or unregistered extension) the outer handler
turns it into the 500 response. -/
def update_image (env : Env) (req : UpdateReq) : UpdateResult :=
  let ip := req.image_path.getD Value.vNull
  let tbOk : Bool :=
    match req.text_blocks with
    | none => false
    | some l => !l.isEmpty
  if !truthy ip || !tbOk then UpdateResult.missingData
  else
    match pyPathExists env ip with
    | none => UpdateResult.error
    | some false => UpdateResult.notFound
    | some true =>
      match ip with
      | Value.vStr p =>
        match env.openMode p with
        | none => UpdateResult.error
        | some m =>
          let base := if m = "RGBA" then PImg.opened p else PImg.convert "RGBA" (PImg.opened p)
          let img := PImg.convert "RGB"
            (PImg.alphaComposite base (opsOf env (req.text_blocks.getD [])))
          let fname := "edited_" ++ secure_filename (basename p)
          if env.saveOk (pathJoin UPLOAD_FOLDER fname) then
            UpdateResult.ok (pathJoin UPLOAD_FOLDER fname) fname img img
          else UpdateResult.error
      | _ => UpdateResult.error

/-- One row of the pytesseract `image_to_data` dictionary output (the
dict of equal-length lists, viewed row-wise). -/
structure OcrRow where
  text : String
  left : Int
  top : Int
  width : Int
  height : Int
  conf : Int
  deriving DecidableEq

/-- The engine contract for one OCR row: reported boxes have non-negative
size. -/
def ocrRowSane (r : OcrRow) : Bool := decide (0 ≤ r.width) && decide (0 ≤ r.height)

/-- A fully-populated text block as returned by `/extract_text`. -/
structure TextBlock where
  text : String
  x : Int
  y : Int
  width : Int
  height : Int
  confidence : Int
  fontSize : Int
  fontFamily : String
  bold : Bool
  italic : Bool
  underline : Bool
  textColor : String
  backgroundColor : String
  backgroundTransparent : Bool
  deriving DecidableEq

/-- The block-building loop of `/extract_text`: keep the rows whose
stripped text is nonempty and attach the default styling. -/
def extract_blocks (rows : List OcrRow) : List TextBlock :=
  rows.filterMap (fun r =>
    let s := pyStripStr r.text
    if s = "" then none
    else some { text := s, x := r.left, y := r.top, width := r.width, height := r.height,
                confidence := r.conf, fontSize := 20, fontFamily := "Arial",
                bold := false, italic := false, underline := false,
                textColor := "#000000", backgroundColor := "#FFFFFF",
                backgroundTransparent := true })

/-- Outcome of `/download/<filename>`: serve a file as an attachment, or
the 404 response. -/
inductive DownloadResult
  | file (path : String) (downloadName : String)
  | notFound
  deriving DecidableEq

/-- The `/download` endpoint from server.py: sanitize the request
filename, join it under the upload folder, and serve it if it exists. -/
def download_file (env : Env) (filename : String) : DownloadResult :=
  let f := secure_filename filename
  let p := pathJoin UPLOAD_FOLDER f
  if env.pathExists p then DownloadResult.file p f else DownloadResult.notFound

/-- Concrete environment used by the evaluation witnesses: every path
exists, every truetype load succeeds, every image opens in RGB mode,
every save succeeds, and text measurement reports a 50 by 12 box anchored
at the requested point. -/
def envW : Env where
  pathExists := fun _ => true
  fdExists := fun _ => false
  loadOk := fun _ _ => true
  openMode := fun _ => some "RGB"
  saveOk := fun _ => true
  textbbox := fun x y _ _ => some (x, y, x + 50, y + 12)

/-- Concrete environment in which no path exists, nothing loads and
nothing saves. -/
def envN : Env where
  pathExists := fun _ => false
  fdExists := fun _ => false
  loadOk := fun _ _ => false
  openMode := fun _ => none
  saveOk := fun _ => false
  textbbox := fun _ _ _ _ => none

/-- A well-formed block relying on all the defaulted style fields. -/
def goodBlockW : RawBlock where
  x := some (Value.vInt 5)
  y := some (Value.vInt 6)
  width := some (Value.vInt 40)
  height := some (Value.vInt 10)
  text := some (Value.vStr "Hello")
  fontSize := none
  fontFamily := none
  bold := none
  italic := none
  underline := none
  textColor := none
  backgroundColor := none
  backgroundTransparent := none

/-- A malformed block: its x coordinate is the non-numeric string "abc". -/
def badBlockW : RawBlock where
  x := some (Value.vStr "abc")
  y := some (Value.vInt 6)
  width := some (Value.vInt 40)
  height := some (Value.vInt 10)
  text := some (Value.vStr "Hello")
  fontSize := none
  fontFamily := none
  bold := none
  italic := none
  underline := none
  textColor := none
  backgroundColor := none
  backgroundTransparent := none

/-- A block whose background color parses but whose text color does not:
its background rectangle is drawn before the block fails. -/
def partialBlockW : RawBlock where
  x := some (Value.vInt 10)
  y := some (Value.vInt 20)
  width := some (Value.vInt 30)
  height := some (Value.vInt 5)
  text := some (Value.vStr "hi")
  fontSize := none
  fontFamily := none
  bold := none
  italic := none
  underline := none
  textColor := some (Value.vStr "oops")
  backgroundColor := some (Value.vStr "#00FF00")
  backgroundTransparent := some (Value.vBool false)

/-- A block requesting an opaque background color. -/
def solidBlockW : RawBlock where
  x := some (Value.vInt 7)
  y := some (Value.vInt 8)
  width := some (Value.vInt 25)
  height := some (Value.vInt 9)
  text := some (Value.vStr "ok")
  fontSize := none
  fontFamily := none
  bold := none
  italic := none
  underline := none
  textColor := none
  backgroundColor := some (Value.vStr "#0A0B0C")
  backgroundTransparent := some (Value.vBool false)

/-- A block requesting an underline. -/
def underlineBlockW : RawBlock where
  x := some (Value.vInt 3)
  y := some (Value.vInt 4)
  width := some (Value.vInt 20)
  height := some (Value.vInt 8)
  text := some (Value.vStr "ab")
  fontSize := none
  fontFamily := none
  bold := none
  italic := none
  underline := some (Value.vBool true)
  textColor := none
  backgroundColor := none
  backgroundTransparent := none

/-- Concrete OCR output rows for the extraction witness: one row with
padded text and one purely-whitespace row. -/
def rowsW : List OcrRow :=
  [⟨"  Hi  ", 0, 1, 2, 3, 88⟩, ⟨"   ", 9, 9, 9, 9, 1⟩]

/-- The block the extraction witness expects back for `rowsW`. -/
def blockW : TextBlock :=
  ⟨"Hi", 0, 1, 2, 3, 88, 20, "Arial", false, false, false, "#000000", "#FFFFFF", true⟩

/-! ## Helper lemmas -/

theorem dropWhile_eq_cons_head {α} (p : α → Bool) (l : List α) (c : α) (t : List α)
    (h : l.dropWhile p = c :: t) : p c = false := by
  have h2 := List.head?_dropWhile_not p l
  rw [h] at h2
  simpa using h2

theorem stripEnd_eq_rdropWhile (p : Char → Bool) (l : List Char) :
    stripEnd p l = l.rdropWhile p := rfl

theorem dropWhile_rdropWhile_fixed {α} (p : α → Bool) (m : List α)
    (hm : m.dropWhile p = m) : (m.rdropWhile p).dropWhile p = m.rdropWhile p := by
  cases h : m.rdropWhile p with
  | nil => simp
  | cons c t =>
    obtain ⟨s, hs⟩ := List.rdropWhile_prefix p m
    rw [h] at hs
    have hc : p c = false := by
      apply dropWhile_eq_cons_head p m c (t ++ s)
      rw [hm, ← hs]
      simp
    rw [List.dropWhile_cons_of_neg (by simp [hc])]

theorem stripBoth_idem (p : Char → Bool) (l : List Char) :
    stripBoth p (stripBoth p l) = stripBoth p l := by
  unfold stripBoth
  rw [stripEnd_eq_rdropWhile, stripEnd_eq_rdropWhile,
    dropWhile_rdropWhile_fixed p (l.dropWhile p) (List.dropWhile_idempotent p l)]
  exact List.rdropWhile_idempotent p (l.dropWhile p)

theorem mem_of_stripBoth {p : Char → Bool} {l : List Char} {a : Char}
    (h : a ∈ stripBoth p l) : a ∈ l := by
  unfold stripBoth stripEnd at h
  rw [List.mem_reverse] at h
  have h2 := List.dropWhile_subset p h
  rw [List.mem_reverse] at h2
  exact List.dropWhile_subset p h2

theorem pyStripStr_idem (s : String) : pyStripStr (pyStripStr s) = pyStripStr s := by
  exact congrArg String.mk (stripBoth_idem pySpace s.data)

theorem tryPaths_append (env : Env) (size : Int) (l₁ l₂ : List (Option String)) :
    tryPaths env size (l₁ ++ l₂) =
      match tryPaths env size l₁ with
      | some f => some f
      | none => tryPaths env size l₂ := by
  induction l₁ with
  | nil => simp [tryPaths]
  | cons o l ih =>
    cases o with
    | none => simpa [tryPaths] using ih
    | some p =>
      simp only [List.cons_append, tryPaths]
      by_cases he : env.pathExists p <;> by_cases hl : env.loadOk p size <;> simp [he, hl, ih]

theorem tryPaths_some (env : Env) (size : Int) :
    ∀ (l : List (Option String)) (f : Font), tryPaths env size l = some f →
      ∃ p, some p ∈ l ∧ env.pathExists p = true ∧ env.loadOk p size = true
        ∧ f = Font.truetype p size := by
  intro l
  induction l with
  | nil => intro f h; simp [tryPaths] at h
  | cons o l ih =>
    intro f h
    cases o with
    | none =>
      obtain ⟨p, hp, he, hl, hf⟩ := ih f (by simpa [tryPaths] using h)
      exact ⟨p, List.mem_cons_of_mem _ hp, he, hl, hf⟩
    | some p =>
      rw [tryPaths] at h
      by_cases he : env.pathExists p
      · rw [if_pos he] at h
        by_cases hl : env.loadOk p size
        · rw [if_pos hl] at h
          exact ⟨p, List.mem_cons_self _ _, by simp [he], by simp [hl],
            (Option.some.inj h).symm⟩
        · rw [if_neg hl] at h
          obtain ⟨q, hq, hqe, hql, hf⟩ := ih f h
          exact ⟨q, List.mem_cons_of_mem _ hq, hqe, hql, hf⟩
      · rw [if_neg he] at h
        obtain ⟨q, hq, hqe, hql, hf⟩ := ih f h
        exact ⟨q, List.mem_cons_of_mem _ hq, hqe, hql, hf⟩

/-! ## Claims -/

/-- C2: font resolution is total and structured as the spec says: it
equals the one-pass search over the Linux candidates followed by the
Windows candidates with the built-in default on exhaustion; its result is
either that default or a truetype font loaded at the requested size from
an existing, loadable candidate path; and a family unknown to both tables
resolves exactly as Arial does.  In the embedding every failure the Python
code guards (absent path, failing truetype load) is explicit in `Env`, so
totality of `get_font` is totality of the source function. -/
theorem get_font_resolution (env : Env) (fam : String) (size : Int) (bold italic : Bool) :
    get_font env fam size bold italic = fontResolutionSpec env fam size bold italic
    ∧ (get_font env fam size bold italic = Font.default
       ∨ ∃ p, some p ∈ linuxCandidates bold italic fam ++ windowsCandidates bold italic fam
           ∧ env.pathExists p = true ∧ env.loadOk p size = true
           ∧ get_font env fam size bold italic = Font.truetype p size)
    ∧ (linux_fonts bold italic fam = none → windows_fonts bold italic fam = none →
        get_font env fam size bold italic = get_font env "Arial" size bold italic) := by
  have h1 : get_font env fam size bold italic = fontResolutionSpec env fam size bold italic := by
    unfold get_font fontResolutionSpec
    rw [tryPaths_append]
    cases tryPaths env size (linuxCandidates bold italic fam) <;>
      cases tryPaths env size (windowsCandidates bold italic fam) <;> simp
  refine ⟨h1, ?_, ?_⟩
  · rw [h1]
    unfold fontResolutionSpec
    cases htp : tryPaths env size
        (linuxCandidates bold italic fam ++ windowsCandidates bold italic fam) with
    | none => left; simp
    | some f =>
      right
      obtain ⟨p, hp, he, hl, hf⟩ := tryPaths_some env size _ f htp
      exact ⟨p, hp, he, hl, by simp [hf]⟩
  · intro hlin hwin
    unfold get_font linuxCandidates windowsCandidates
    rw [hlin, hwin]
    simp [linux_fonts, windows_fonts]

/-- C2 witness: a family name in neither table resolves exactly as Arial
in a concrete environment. -/
theorem get_font_resolution_witness :
    linux_fonts false false "Helvetica" = none
    ∧ windows_fonts false false "Helvetica" = none
    ∧ get_font envW "Helvetica" 12 false false = get_font envW "Arial" 12 false false :=
  ⟨by decide, by decide,
    (get_font_resolution envW "Helvetica" 12 false false).2.2 (by decide) (by decide)⟩

/-- C3: every text block built by the extraction loop has nonempty,
already-stripped text, and it copies the OCR box verbatim, so under the
engine contract that boxes have non-negative size every returned block has
non-negative width and height. -/
theorem extract_blocks_wellformed (rows : List OcrRow)
    (h : rows.all ocrRowSane = true) :
    ∀ b ∈ extract_blocks rows,
      b.text ≠ "" ∧ pyStripStr b.text = b.text ∧ 0 ≤ b.width ∧ 0 ≤ b.height := by
  intro b hb
  unfold extract_blocks at hb
  rw [List.mem_filterMap] at hb
  obtain ⟨r, hr, hf⟩ := hb
  by_cases hs : pyStripStr r.text = ""
  · simp [hs] at hf
  · rw [if_neg hs] at hf
    have hrow := List.all_eq_true.mp h r hr
    rw [ocrRowSane, Bool.and_eq_true, decide_eq_true_eq, decide_eq_true_eq] at hrow
    obtain ⟨hw, hh⟩ := hrow
    have hb := (Option.some.inj hf)
    subst hb
    exact ⟨hs, pyStripStr_idem r.text, hw, hh⟩

/-- C3 witness: concrete OCR rows with one padded word and one whitespace
row yield one block with stripped nonempty text and non-negative box. -/
theorem extract_blocks_wellformed_witness :
    rowsW.all ocrRowSane = true
    ∧ (blockW.text ≠ "" ∧ pyStripStr blockW.text = blockW.text
        ∧ 0 ≤ blockW.width ∧ 0 ≤ blockW.height) :=
  ⟨by decide, extract_blocks_wellformed rowsW (by decide) blockW (by decide)⟩

/-- Every character surviving `secure_filename` lies in the safe class. -/
theorem secure_filename_chars (s : String) :
    (secure_filename s).data.all allowedChar = true := by
  rw [List.all_eq_true]
  intro c hc
  have h1 : c ∈ (List.intercalate ['_']
      (pySplit ((s.data.filter (fun c => c.toNat ≤ 127)).map
        (fun c => if c == '/' then ' ' else c)))).filter allowedChar :=
    mem_of_stripBoth hc
  exact (List.mem_filter.mp h1).2

/-- `secure_filename` never returns the parent-directory name. -/
theorem secure_filename_ne_dotdot (s : String) : secure_filename s ≠ ".." := by
  intro h
  have hd : (secure_filename s).data = ['.', '.'] := by rw [h]
  have hfix := dropWhile_rdropWhile_fixed stripSet
    (((List.intercalate ['_']
      (pySplit ((s.data.filter (fun c => c.toNat ≤ 127)).map
        (fun c => if c == '/' then ' ' else c)))).filter allowedChar).dropWhile stripSet)
    (List.dropWhile_idempotent _ _)
  rw [show (((List.intercalate ['_']
      (pySplit ((s.data.filter (fun c => c.toNat ≤ 127)).map
        (fun c => if c == '/' then ' ' else c)))).filter allowedChar).dropWhile
          stripSet).rdropWhile stripSet = (secure_filename s).data from rfl, hd] at hfix
  exact absurd hfix (by decide)

/-- A filename made only of safe characters is joined, not substituted,
by `os.path.join`. -/
theorem pathJoin_of_allowed (a b : String) (h : b.data.all allowedChar = true) :
    pathJoin a b = a ++ "/" ++ b := by
  unfold pathJoin
  split
  next heq =>
    exfalso
    have hmem : '/' ∈ b.data := by rw [heq]; exact List.mem_cons_self _ _
    have := List.all_eq_true.mp h _ hmem
    exact absurd this (by decide)
  next => rfl

/-- C10: the download endpoint serves only the sanitized filename joined
under the upload folder: the sanitized name contains no path separator and
is never the parent-directory name, the join therefore stays inside the
upload folder, and a missing file yields the 404 response. -/
theorem download_file_confined (env : Env) (filename : String) :
    (secure_filename filename).data.all allowedChar = true
    ∧ secure_filename filename ≠ ".."
    ∧ pathJoin UPLOAD_FOLDER (secure_filename filename)
        = UPLOAD_FOLDER ++ "/" ++ secure_filename filename
    ∧ download_file env filename =
        (if env.pathExists (pathJoin UPLOAD_FOLDER (secure_filename filename)) then
          DownloadResult.file (pathJoin UPLOAD_FOLDER (secure_filename filename))
            (secure_filename filename)
        else DownloadResult.notFound) :=
  ⟨secure_filename_chars filename, secure_filename_ne_dotdot filename,
    pathJoin_of_allowed UPLOAD_FOLDER (secure_filename filename)
      (secure_filename_chars filename), rfl⟩

theorem opsOf_append (env : Env) (l₁ l₂ : List RawBlock) :
    opsOf env (l₁ ++ l₂) = opsOf env l₁ ++ opsOf env l₂ := by
  simp [opsOf]

theorem opsOf_cons (env : Env) (b : RawBlock) (l : List RawBlock) :
    opsOf env (b :: l) = (processBlock env b).fst ++ opsOf env l := by
  simp [opsOf]

theorem update_image_ok (env : Env) (p m : String) (bs : List RawBlock)
    (hp : p ≠ "") (hbs : bs ≠ []) (hex : env.pathExists p = true)
    (hopen : env.openMode p = some m)
    (hsave : env.saveOk
      (pathJoin UPLOAD_FOLDER ("edited_" ++ secure_filename (basename p))) = true) :
    update_image env ⟨some (Value.vStr p), some bs⟩ =
      UpdateResult.ok
        (pathJoin UPLOAD_FOLDER ("edited_" ++ secure_filename (basename p)))
        ("edited_" ++ secure_filename (basename p))
        (PImg.convert "RGB" (PImg.alphaComposite
          (if m = "RGBA" then PImg.opened p else PImg.convert "RGBA" (PImg.opened p))
          (opsOf env bs)))
        (PImg.convert "RGB" (PImg.alphaComposite
          (if m = "RGBA" then PImg.opened p else PImg.convert "RGBA" (PImg.opened p))
          (opsOf env bs))) := by
  have h1 : (p != "") = true := by simpa using hp
  have h2 : bs.isEmpty = false := by
    cases bs with
    | nil => exact absurd rfl hbs
    | cons a t => rfl
  simp [update_image, truthy, pyPathExists, h1, h2, hex, hopen, hsave]

/-- C1: per-block failures are isolated: with a valid image path whose
edited output name the image library can save (the save infers its format
from that name and raises on an absent or unregistered extension, which
the endpoint turns into a 500), a block list containing a failing block
still yields the 200 success response, and the composed overlay is
exactly the concatenation of what each block drew, so the failing block
never disturbs the blocks before or after it. -/
theorem update_image_isolates_block_failures (env : Env) (p m : String)
    (bs₁ bs₂ : List RawBlock) (bad : RawBlock)
    (hp : p ≠ "") (hex : env.pathExists p = true) (hopen : env.openMode p = some m)
    (hsave : env.saveOk
      (pathJoin UPLOAD_FOLDER ("edited_" ++ secure_filename (basename p))) = true)
    (hbad : (processBlock env bad).snd = false) :
    update_image env ⟨some (Value.vStr p), some (bs₁ ++ bad :: bs₂)⟩ =
      UpdateResult.ok
        (pathJoin UPLOAD_FOLDER ("edited_" ++ secure_filename (basename p)))
        ("edited_" ++ secure_filename (basename p))
        (PImg.convert "RGB" (PImg.alphaComposite
          (if m = "RGBA" then PImg.opened p else PImg.convert "RGBA" (PImg.opened p))
          (opsOf env bs₁ ++ (processBlock env bad).fst ++ opsOf env bs₂)))
        (PImg.convert "RGB" (PImg.alphaComposite
          (if m = "RGBA" then PImg.opened p else PImg.convert "RGBA" (PImg.opened p))
          (opsOf env bs₁ ++ (processBlock env bad).fst ++ opsOf env bs₂))) := by
  rw [update_image_ok env p m _ hp (by simp) hex hopen hsave, opsOf_append, opsOf_cons]
  simp [List.append_assoc]

/-- C1 witness: one good and one malformed block (non-numeric x
coordinate) still produce the success response with the good block drawn. -/
theorem update_image_isolates_block_failures_witness :
    ("uploads/a.png" : String) ≠ ""
    ∧ envW.pathExists "uploads/a.png" = true
    ∧ envW.openMode "uploads/a.png" = some "RGB"
    ∧ envW.saveOk
        (pathJoin UPLOAD_FOLDER ("edited_" ++ secure_filename (basename "uploads/a.png"))) = true
    ∧ (processBlock envW badBlockW).snd = false
    ∧ update_image envW ⟨some (Value.vStr "uploads/a.png"),
        some ([goodBlockW] ++ badBlockW :: [])⟩ =
      UpdateResult.ok
        (pathJoin UPLOAD_FOLDER ("edited_" ++ secure_filename (basename "uploads/a.png")))
        ("edited_" ++ secure_filename (basename "uploads/a.png"))
        (PImg.convert "RGB" (PImg.alphaComposite
          (if ("RGB" : String) = "RGBA" then PImg.opened "uploads/a.png"
           else PImg.convert "RGBA" (PImg.opened "uploads/a.png"))
          (opsOf envW [goodBlockW] ++ (processBlock envW badBlockW).fst
            ++ opsOf envW [])))
        (PImg.convert "RGB" (PImg.alphaComposite
          (if ("RGB" : String) = "RGBA" then PImg.opened "uploads/a.png"
           else PImg.convert "RGBA" (PImg.opened "uploads/a.png"))
          (opsOf envW [goodBlockW] ++ (processBlock envW badBlockW).fst
            ++ opsOf envW []))) :=
  ⟨by decide, rfl, rfl, rfl, by decide,
    update_image_isolates_block_failures envW "uploads/a.png" "RGB" [goodBlockW] []
      badBlockW (by decide) rfl rfl rfl (by decide)⟩

/-- C6: a request with nonempty path and block list whose image file does
not exist gets the 404 response, not a 500, and no output image. -/
theorem update_image_missing_file_404 (env : Env) (p : String) (bs : List RawBlock)
    (hp : p ≠ "") (hbs : bs ≠ []) (hex : env.pathExists p = false) :
    update_image env ⟨some (Value.vStr p), some bs⟩ = UpdateResult.notFound := by
  have h1 : (p != "") = true := by simpa using hp
  have h2 : bs.isEmpty = false := by
    cases bs with
    | nil => exact absurd rfl hbs
    | cons a t => rfl
  simp [update_image, truthy, pyPathExists, h1, h2, hex]

/-- C6 witness: a concrete request for a nonexistent file is answered 404. -/
theorem update_image_missing_file_404_witness :
    ("ghost.png" : String) ≠ ""
    ∧ ([goodBlockW] : List RawBlock) ≠ []
    ∧ envN.pathExists "ghost.png" = false
    ∧ update_image envN ⟨some (Value.vStr "ghost.png"), some [goodBlockW]⟩ =
        UpdateResult.notFound :=
  ⟨by decide, by decide, rfl,
    update_image_missing_file_404 envN "ghost.png" [goodBlockW] (by decide) (by decide) rfl⟩

/-- C7: a successful edit returns the 200 response whose saved file is
`edited_` plus the sanitized basename of the input path, joined under the
upload folder; the image written to disk and the image returned inline are
the same alpha-composited pipeline, flattened to mode RGB.  Success
requires the save to that output name to go through: the save infers its
format from the name, and an absent or unregistered extension raises,
which the endpoint reports as a 500 instead. -/
theorem update_image_output_contract (env : Env) (p m : String) (bs : List RawBlock)
    (hp : p ≠ "") (hbs : bs ≠ []) (hex : env.pathExists p = true)
    (hopen : env.openMode p = some m)
    (hsave : env.saveOk
      (pathJoin UPLOAD_FOLDER ("edited_" ++ secure_filename (basename p))) = true) :
    update_image env ⟨some (Value.vStr p), some bs⟩ =
      UpdateResult.ok
        (pathJoin UPLOAD_FOLDER ("edited_" ++ secure_filename (basename p)))
        ("edited_" ++ secure_filename (basename p))
        (PImg.convert "RGB" (PImg.alphaComposite
          (if m = "RGBA" then PImg.opened p else PImg.convert "RGBA" (PImg.opened p))
          (opsOf env bs)))
        (PImg.convert "RGB" (PImg.alphaComposite
          (if m = "RGBA" then PImg.opened p else PImg.convert "RGBA" (PImg.opened p))
          (opsOf env bs)))
    ∧ modeOf env (PImg.convert "RGB" (PImg.alphaComposite
        (if m = "RGBA" then PImg.opened p else PImg.convert "RGBA" (PImg.opened p))
        (opsOf env bs))) = "RGB" :=
  ⟨update_image_ok env p m bs hp hbs hex hopen hsave, rfl⟩

/-- C7 witness: a concrete successful edit, with the concrete saved name
`uploads/edited_pic.png`. -/
theorem update_image_output_contract_witness :
    ("uploads/pic.png" : String) ≠ ""
    ∧ ([goodBlockW] : List RawBlock) ≠ []
    ∧ envW.pathExists "uploads/pic.png" = true
    ∧ envW.openMode "uploads/pic.png" = some "RGB"
    ∧ envW.saveOk
        (pathJoin UPLOAD_FOLDER ("edited_" ++ secure_filename (basename "uploads/pic.png"))) = true
    ∧ (update_image envW ⟨some (Value.vStr "uploads/pic.png"), some [goodBlockW]⟩ =
        UpdateResult.ok
          (pathJoin UPLOAD_FOLDER ("edited_" ++ secure_filename (basename "uploads/pic.png")))
          ("edited_" ++ secure_filename (basename "uploads/pic.png"))
          (PImg.convert "RGB" (PImg.alphaComposite
            (if ("RGB" : String) = "RGBA" then PImg.opened "uploads/pic.png"
             else PImg.convert "RGBA" (PImg.opened "uploads/pic.png"))
            (opsOf envW [goodBlockW])))
          (PImg.convert "RGB" (PImg.alphaComposite
            (if ("RGB" : String) = "RGBA" then PImg.opened "uploads/pic.png"
             else PImg.convert "RGBA" (PImg.opened "uploads/pic.png"))
            (opsOf envW [goodBlockW])))
        ∧ modeOf envW (PImg.convert "RGB" (PImg.alphaComposite
            (if ("RGB" : String) = "RGBA" then PImg.opened "uploads/pic.png"
             else PImg.convert "RGBA" (PImg.opened "uploads/pic.png"))
            (opsOf envW [goodBlockW]))) = "RGB")
    ∧ pathJoin UPLOAD_FOLDER ("edited_" ++ secure_filename (basename "uploads/pic.png"))
        = "uploads/edited_pic.png" :=
  ⟨by decide, by decide, rfl, rfl, rfl,
    update_image_output_contract envW "uploads/pic.png" "RGB" [goodBlockW]
      (by decide) (by decide) rfl rfl rfl, by decide⟩

/-- C9: an `update_image` body with an empty block list, or with an empty
image path string, is rejected by the presence check with the 400 response
(`missingData` models the 400 "Missing required data" reply), before any
file is probed or opened. -/
theorem update_image_empty_fields_rejected (env : Env) (ip : Option Value)
    (bs : Option (List RawBlock)) :
    update_image env ⟨ip, some []⟩ = UpdateResult.missingData
    ∧ update_image env ⟨some (Value.vStr ""), bs⟩ = UpdateResult.missingData := by
  constructor
  · simp [update_image]
  · simp [update_image, truthy]

/-- C4: the covering rectangle a block draws first spans its bounding box
expanded by 2 pixels on each side; it is the fixed translucent near-white
`(255, 255, 255, 200)` when `backgroundTransparent` is truthy, and the
requested background color at alpha 255 when it is falsy and the color
parses. -/
theorem processBlock_background_rect (env : Env) (b : RawBlock) (x y w h : Int)
    (tv : Value) (fs : Int)
    (hx : b.x.bind pyInt = some x) (hy : b.y.bind pyInt = some y)
    (hw : b.width.bind pyInt = some w) (hh : b.height.bind pyInt = some h)
    (ht : b.text = some tv)
    (hfs : pyInt (b.fontSize.getD (Value.vInt 20)) = some fs) :
    (truthy (b.backgroundTransparent.getD (Value.vBool true)) = true →
      (processBlock env b).fst.head? =
        some (DrawOp.rect (x - 2) (y - 2) (x + w + 2) (y + h + 2) ⟨255, 255, 255, 200⟩))
    ∧ (∀ r g bl, truthy (b.backgroundTransparent.getD (Value.vBool true)) = false →
        hex_to_rgb (b.backgroundColor.getD (Value.vStr "#FFFFFF")) = some (r, g, bl) →
        (processBlock env b).fst.head? =
          some (DrawOp.rect (x - 2) (y - 2) (x + w + 2) (y + h + 2) ⟨r, g, bl, 255⟩)) := by
  constructor
  · intro hbt
    unfold processBlock
    simp only [hx, hy, hw, hh, ht, hfs]
    unfold bgOpOf
    simp only [hbt, if_true]
    cases htc : hex_to_rgb (b.textColor.getD (Value.vStr "#000000")) with
    | none => simp [htc]
    | some tc =>
      simp only [htc]
      split
      · split <;> simp
      · simp
  · intro r g bl hbt hbg
    unfold processBlock
    simp only [hx, hy, hw, hh, ht, hfs]
    unfold bgOpOf
    simp only [hbt, Bool.false_eq_true, if_false, hbg, Option.map_some']
    cases htc : hex_to_rgb (b.textColor.getD (Value.vStr "#000000")) with
    | none => simp [htc]
    | some tc =>
      simp only [htc]
      split
      · split <;> simp
      · simp

/-- C4 witness: the translucent branch on a concrete transparent block and
the opaque branch on a concrete opaque block. -/
theorem processBlock_background_rect_witness :
    goodBlockW.x.bind pyInt = some 5
    ∧ truthy (goodBlockW.backgroundTransparent.getD (Value.vBool true)) = true
    ∧ (processBlock envW goodBlockW).fst.head? =
        some (DrawOp.rect (5 - 2) (6 - 2) (5 + 40 + 2) (6 + 10 + 2) ⟨255, 255, 255, 200⟩)
    ∧ truthy (solidBlockW.backgroundTransparent.getD (Value.vBool true)) = false
    ∧ hex_to_rgb (solidBlockW.backgroundColor.getD (Value.vStr "#FFFFFF")) = some (10, 11, 12)
    ∧ (processBlock envW solidBlockW).fst.head? =
        some (DrawOp.rect (7 - 2) (8 - 2) (7 + 25 + 2) (8 + 9 + 2) ⟨10, 11, 12, 255⟩) :=
  ⟨by decide, by decide,
    (processBlock_background_rect envW goodBlockW 5 6 40 10 (Value.vStr "Hello") 20
      (by decide) (by decide) (by decide) (by decide) (by decide) (by decide)).1 (by decide),
    by decide, by decide,
    (processBlock_background_rect envW solidBlockW 7 8 25 9 (Value.vStr "ok") 20
      (by decide) (by decide) (by decide) (by decide) (by decide) (by decide)).2
      10 11 12 (by decide) (by decide)⟩

/-- C5: when underline is requested and text measurement succeeds, the
block draws its background, its text, and a width-2 horizontal line in the
text color at one pixel below the measured bottom edge, running from the
anchor to the measured right edge; when the anchor is at or left of the
measured left edge that run covers at least the measured text width. -/
theorem processBlock_underline (env : Env) (b : RawBlock) (x y w h : Int)
    (tv : Value) (fs : Int) (bgOp : DrawOp) (tr tg tb x1 y1 x2 y2 : Int)
    (hx : b.x.bind pyInt = some x) (hy : b.y.bind pyInt = some y)
    (hw : b.width.bind pyInt = some w) (hh : b.height.bind pyInt = some h)
    (ht : b.text = some tv)
    (hfs : pyInt (b.fontSize.getD (Value.vInt 20)) = some fs)
    (hbg : bgOpOf b x y w h = some bgOp)
    (htc : hex_to_rgb (b.textColor.getD (Value.vStr "#000000")) = some (tr, tg, tb))
    (hu : truthy (b.underline.getD (Value.vBool false)) = true)
    (hbb : env.textbbox x y (pyStr tv) (blockFont env b fs) = some (x1, y1, x2, y2))
    (hx1 : x ≤ x1) :
    (processBlock env b).fst =
      [bgOp, DrawOp.text x y (pyStr tv) ⟨tr, tg, tb, 255⟩ (blockFont env b fs),
       DrawOp.line x (y2 + 1) x2 (y2 + 1) ⟨tr, tg, tb, 255⟩ 2]
    ∧ (processBlock env b).snd = true
    ∧ y2 < y2 + 1
    ∧ x2 - x1 ≤ x2 - x := by
  have hpb : processBlock env b =
      ([bgOp, DrawOp.text x y (pyStr tv) ⟨tr, tg, tb, 255⟩ (blockFont env b fs),
        DrawOp.line x (y2 + 1) x2 (y2 + 1) ⟨tr, tg, tb, 255⟩ 2], true) := by
    unfold processBlock
    simp only [hx, hy, hw, hh, ht, hfs, hbg, htc, hu, if_true, hbb]
  exact ⟨by rw [hpb], by rw [hpb], by omega, by omega⟩

/-- C5 witness: a concrete underlined block in an environment whose text
measurement anchors the box at the requested point. -/
theorem processBlock_underline_witness :
    bgOpOf underlineBlockW 3 4 20 8 =
      some (DrawOp.rect (3 - 2) (4 - 2) (3 + 20 + 2) (4 + 8 + 2) ⟨255, 255, 255, 200⟩)
    ∧ hex_to_rgb (underlineBlockW.textColor.getD (Value.vStr "#000000")) = some (0, 0, 0)
    ∧ truthy (underlineBlockW.underline.getD (Value.vBool false)) = true
    ∧ envW.textbbox 3 4 (pyStr (Value.vStr "ab")) (blockFont envW underlineBlockW 20) =
        some (3, 4, 53, 16)
    ∧ ((processBlock envW underlineBlockW).fst =
        [DrawOp.rect (3 - 2) (4 - 2) (3 + 20 + 2) (4 + 8 + 2) ⟨255, 255, 255, 200⟩,
         DrawOp.text 3 4 (pyStr (Value.vStr "ab")) ⟨0, 0, 0, 255⟩
           (blockFont envW underlineBlockW 20),
         DrawOp.line 3 (16 + 1) 53 (16 + 1) ⟨0, 0, 0, 255⟩ 2]
      ∧ (processBlock envW underlineBlockW).snd = true
      ∧ (16 : Int) < 16 + 1
      ∧ (53 : Int) - 3 ≤ 53 - 3) :=
  ⟨by decide, by decide, by decide, by decide,
    processBlock_underline envW underlineBlockW 3 4 20 8 (Value.vStr "ab") 20
      (DrawOp.rect (3 - 2) (4 - 2) (3 + 20 + 2) (4 + 8 + 2) ⟨255, 255, 255, 200⟩)
      0 0 0 3 4 53 16
      (by decide) (by decide) (by decide) (by decide) (by decide) (by decide)
      (by decide) (by decide) (by decide) (by decide) (by decide)⟩

/-- C8: block rendering is not atomic: a block whose background color
parses but whose text color does not leaves its background rectangle in
the composed output while the block itself counts as failed, and the
overall request still succeeds (given that the save of the edited output
name goes through, as for every 200 response of this endpoint). -/
theorem processBlock_partial_effects (env : Env) (p m : String)
    (bs₁ bs₂ : List RawBlock) (b : RawBlock) (x y w h : Int) (tv : Value) (fs : Int)
    (r g bl : Int)
    (hp : p ≠ "") (hex : env.pathExists p = true) (hopen : env.openMode p = some m)
    (hsave : env.saveOk
      (pathJoin UPLOAD_FOLDER ("edited_" ++ secure_filename (basename p))) = true)
    (hx : b.x.bind pyInt = some x) (hy : b.y.bind pyInt = some y)
    (hw : b.width.bind pyInt = some w) (hh : b.height.bind pyInt = some h)
    (ht : b.text = some tv)
    (hfs : pyInt (b.fontSize.getD (Value.vInt 20)) = some fs)
    (hbt : truthy (b.backgroundTransparent.getD (Value.vBool true)) = false)
    (hbg : hex_to_rgb (b.backgroundColor.getD (Value.vStr "#FFFFFF")) = some (r, g, bl))
    (htc : hex_to_rgb (b.textColor.getD (Value.vStr "#000000")) = none) :
    processBlock env b =
      ([DrawOp.rect (x - 2) (y - 2) (x + w + 2) (y + h + 2) ⟨r, g, bl, 255⟩], false)
    ∧ update_image env ⟨some (Value.vStr p), some (bs₁ ++ b :: bs₂)⟩ =
      UpdateResult.ok
        (pathJoin UPLOAD_FOLDER ("edited_" ++ secure_filename (basename p)))
        ("edited_" ++ secure_filename (basename p))
        (PImg.convert "RGB" (PImg.alphaComposite
          (if m = "RGBA" then PImg.opened p else PImg.convert "RGBA" (PImg.opened p))
          (opsOf env bs₁
            ++ [DrawOp.rect (x - 2) (y - 2) (x + w + 2) (y + h + 2) ⟨r, g, bl, 255⟩]
            ++ opsOf env bs₂)))
        (PImg.convert "RGB" (PImg.alphaComposite
          (if m = "RGBA" then PImg.opened p else PImg.convert "RGBA" (PImg.opened p))
          (opsOf env bs₁
            ++ [DrawOp.rect (x - 2) (y - 2) (x + w + 2) (y + h + 2) ⟨r, g, bl, 255⟩]
            ++ opsOf env bs₂))) := by
  have hpb : processBlock env b =
      ([DrawOp.rect (x - 2) (y - 2) (x + w + 2) (y + h + 2) ⟨r, g, bl, 255⟩], false) := by
    unfold processBlock
    simp only [hx, hy, hw, hh, ht, hfs]
    unfold bgOpOf
    simp only [hbt, Bool.false_eq_true, if_false, hbg, Option.map_some', htc]
  refine ⟨hpb, ?_⟩
  rw [update_image_ok env p m _ hp (by simp) hex hopen hsave, opsOf_append, opsOf_cons, hpb]
  simp [List.append_assoc]

/-- C8 witness: a concrete block with background `#00FF00` and text color
"oops" leaves exactly its green rectangle and is reported failed, while
the request around it succeeds. -/
theorem processBlock_partial_effects_witness :
    truthy (partialBlockW.backgroundTransparent.getD (Value.vBool true)) = false
    ∧ hex_to_rgb (partialBlockW.backgroundColor.getD (Value.vStr "#FFFFFF")) = some (0, 255, 0)
    ∧ hex_to_rgb (partialBlockW.textColor.getD (Value.vStr "#000000")) = none
    ∧ envW.saveOk
        (pathJoin UPLOAD_FOLDER ("edited_" ++ secure_filename (basename "uploads/a.png"))) = true
    ∧ (processBlock envW partialBlockW =
        ([DrawOp.rect (10 - 2) (20 - 2) (10 + 30 + 2) (20 + 5 + 2) ⟨0, 255, 0, 255⟩], false)
      ∧ update_image envW ⟨some (Value.vStr "uploads/a.png"),
          some ([goodBlockW] ++ partialBlockW :: [])⟩ =
        UpdateResult.ok
          (pathJoin UPLOAD_FOLDER ("edited_" ++ secure_filename (basename "uploads/a.png")))
          ("edited_" ++ secure_filename (basename "uploads/a.png"))
          (PImg.convert "RGB" (PImg.alphaComposite
            (if ("RGB" : String) = "RGBA" then PImg.opened "uploads/a.png"
             else PImg.convert "RGBA" (PImg.opened "uploads/a.png"))
            (opsOf envW [goodBlockW]
              ++ [DrawOp.rect (10 - 2) (20 - 2) (10 + 30 + 2) (20 + 5 + 2) ⟨0, 255, 0, 255⟩]
              ++ opsOf envW [])))
          (PImg.convert "RGB" (PImg.alphaComposite
            (if ("RGB" : String) = "RGBA" then PImg.opened "uploads/a.png"
             else PImg.convert "RGBA" (PImg.opened "uploads/a.png"))
            (opsOf envW [goodBlockW]
              ++ [DrawOp.rect (10 - 2) (20 - 2) (10 + 30 + 2) (20 + 5 + 2) ⟨0, 255, 0, 255⟩]
              ++ opsOf envW [])))) :=
  ⟨by decide, by decide, by decide, rfl,
    processBlock_partial_effects envW "uploads/a.png" "RGB" [goodBlockW] []
      partialBlockW 10 20 30 5 (Value.vStr "hi") 20 0 255 0
      (by decide) rfl rfl rfl (by decide) (by decide) (by decide) (by decide) (by decide)
      (by decide) (by decide) (by decide) (by decide)⟩
